import Mathlib

/-!
Shallow embedding of the Dialogue Record Store of `src/script.js`
(class `DialogueManager`).  The store logic is embedded as pure Lean
functions over explicit state:

* the in-memory sequence `this.dialogues` becomes a `List Dialogue`;
* the `localStorage` slot becomes an `Option (List Dialogue)` (the parsed
  content persisted under the fixed key `ai_dialogues`), and a possible
  `setItem` failure (quota exceeded) is an explicit `persistOk : Bool`
  parameter of each persisting call;
* `Date.now()` becomes an explicit `now : Nat` parameter (milliseconds),
  `new Date().toLocaleString('zh-CN')` an explicit `locTime : String`;
* `showMessage(msg, type)` calls are collected into a list of pairs
  (these are the caller/user-visible notifications), `console.error`
  calls into a separate list of log strings;
* JSON values handled by the import/hydration paths are modelled by the
  flat grammar `JVal`/`JItem`/`JField`, which distinguishes exactly what
  the code inspects: `Array.isArray`, truthy-object-ness of an item, and
  `typeof field === 'string'`.
-/

/-- Removing leading and trailing whitespace from a character list. -/
def trimList (l : List Char) : List Char :=
  ((l.dropWhile Char.isWhitespace).reverse.dropWhile Char.isWhitespace).reverse

/-- JavaScript `String.prototype.trim`: removes leading and trailing
whitespace.  Defined by structural recursion over the character list so
that concrete instances evaluate. -/
def jsTrim (s : String) : String :=
  ⟨trimList s.data⟩

/-- One stored turn record, as built by `addDialogue` (src/script.js:57-63):
fields `id`, `role`, `dialogue`, `think`, `timestamp`, all strings. -/
structure Dialogue where
  id : String
  role : String
  dialogue : String
  think : String
  timestamp : String
deriving DecidableEq, Repr

/-- A JSON field value, as inspected by the import validation: either a
string or anything that is not a string (`typeof item.f === 'string'`
fails on the latter, whatever it is). -/
inductive JField where
  | jstr (s : String)
  | nonStr
deriving DecidableEq, Repr

/-- A JSON array element, as inspected by the import validation: either a
(truthy) object with named fields, or anything else — a falsy value fails
the `item &&` check, and a truthy non-object has no string-typed `id`
property, so both reduce to "not a usable object". -/
inductive JItem where
  | obj (fields : List (String × JField))
  | notObj
deriving DecidableEq, Repr

/-- A parsed JSON document, as inspected by `handleFileImport` and
`loadDialogues`: either an array of items (`Array.isArray` holds) or some
other JSON value, carried as a descriptive rendering. -/
inductive JVal where
  | arr (items : List JItem)
  | notArr (desc : String)
deriving DecidableEq, Repr

/-- Property access `item.f` followed by the `typeof … === 'string'` test. -/
def isStrField (f : Option JField) : Bool :=
  match f with
  | some (.jstr _) => true
  | _ => false

/-- Property access `item.f` coerced to the string it holds (`""` when the
field is absent or not a string; only used on validated paths where the
field is known to be a string, except for `think`, which the code never
validates). -/
def getStrField (f : Option JField) : String :=
  match f with
  | some (.jstr s) => s
  | _ => ""

/-- The structural validation applied to each imported candidate
(src/script.js:351-357): the item is truthy and `id`, `role`, `dialogue`,
`timestamp` are all present with string type.  `think` is not checked. -/
def validItem : JItem → Bool
  | .obj fs =>
      isStrField (fs.lookup "id") && isStrField (fs.lookup "role") &&
      isStrField (fs.lookup "dialogue") && isStrField (fs.lookup "timestamp")
  | .notObj => false

/-- `item.id` as read by the deduplication step (src/script.js:365). -/
def itemId : JItem → String
  | .obj fs => getStrField (fs.lookup "id")
  | .notObj => ""

/-- An imported candidate as it ends up stored: the code unshifts the raw
parsed object; we read its five fields (`think` defaults to empty when
absent, matching how the renderer and exporter treat a missing `think`). -/
def itemToDialogue : JItem → Dialogue
  | .obj fs =>
      { id := getStrField (fs.lookup "id"), role := getStrField (fs.lookup "role"),
        dialogue := getStrField (fs.lookup "dialogue"),
        think := getStrField (fs.lookup "think"),
        timestamp := getStrField (fs.lookup "timestamp") }
  | .notObj => { id := "", role := "", dialogue := "", think := "", timestamp := "" }

/-- `JSON.stringify` of one stored record, at the parsed-JSON level:
the five fields in the literal's insertion order (src/script.js:57-63). -/
def dialogueToItem (r : Dialogue) : JItem :=
  .obj [("id", .jstr r.id), ("role", .jstr r.role), ("dialogue", .jstr r.dialogue),
        ("think", .jstr r.think), ("timestamp", .jstr r.timestamp)]

/-- `saveDialogues` (src/script.js:36-42): `localStorage.setItem` of the
serialized sequence inside `try`/`catch`.  `persistOk` models whether
`setItem` succeeds; on failure the exception is caught, the old slot
content is kept, and the failure is only logged via `console.error`.
Returns the new slot content and the console log entries. -/
def saveDialogues (persistOk : Bool) (dialogues : List Dialogue)
    (slot : Option (List Dialogue)) : Option (List Dialogue) × List String :=
  if persistOk then (some dialogues, [])
  else (slot, ["保存对话数据失败"])

/-- `loadDialogues` (src/script.js:23-31).  The stored slot is modelled as
absent/falsy (`none`), present but not valid JSON (`some (.error m)`,
where `m` is the `JSON.parse` error message), or present and parsed to a
JSON value (`some (.ok v)`).  Note the code returns the parsed value
as-is, with no structural validation, and returns `[]` only when the slot
is absent or `JSON.parse` throws (caught, logged). -/
def loadDialogues (stored : Option (Except String JVal)) : JVal × List String :=
  match stored with
  | none => (.arr [], [])
  | some (.error m) => (.arr [], ["加载对话数据失败: " ++ m])
  | some (.ok v) => (v, [])

/-- The outcome of one mutating operation: the JS return value (only
`addDialogue` returns a meaningful boolean; the others return
`undefined`, for which `ok` merely records whether the mutation was
performed), the new in-memory sequence, the new persisted slot content,
the `showMessage` notifications shown to the user, and the
`console.error` log entries. -/
structure OpResult where
  ok : Bool
  dialogues : List Dialogue
  persisted : Option (List Dialogue)
  messages : List (String × String)
  logs : List String
deriving DecidableEq, Repr

/-- The record literal built by `addDialogue` (src/script.js:57-63):
`id` is `Date.now().toString()`, `dialogue` is trimmed, `think` is the
trimmed think text only for role `responder` and `''` otherwise. -/
def newDialogue (now : Nat) (locTime role dialogueText thinkText : String) : Dialogue :=
  { id := toString now, role := role, dialogue := jsTrim dialogueText,
    think := if role = "responder" then jsTrim thinkText else "",
    timestamp := locTime }

/-- `addDialogue` (src/script.js:51-70): reject when the trimmed dialogue
text is empty, otherwise push the new record, save, and report success
(the success notification is shown whether or not the save succeeded). -/
def addDialogue (persistOk : Bool) (now : Nat)
    (locTime role dialogueText thinkText : String)
    (dialogues : List Dialogue) (slot : Option (List Dialogue)) : OpResult :=
  if jsTrim dialogueText = "" then
    { ok := false, dialogues := dialogues, persisted := slot,
      messages := [("请输入对话内容", "error")], logs := [] }
  else
    let r := newDialogue now locTime role dialogueText thinkText
    let ds := dialogues ++ [r]
    let sv := saveDialogues persistOk ds slot
    { ok := true, dialogues := ds, persisted := sv.1,
      messages := [("对话添加成功", "success")], logs := sv.2 }

/-- `deleteDialogue` (src/script.js:76-83): behind a `confirm` prompt
(modelled by `confirmed`), filter out every record whose id matches, then
save, re-render and unconditionally report deletion success — there is no
check that a record was actually removed. -/
def deleteDialogue (persistOk confirmed : Bool) (id : String)
    (dialogues : List Dialogue) (slot : Option (List Dialogue)) : OpResult :=
  if confirmed then
    let ds := dialogues.filter (fun d => d.id != id)
    let sv := saveDialogues persistOk ds slot
    { ok := true, dialogues := ds, persisted := sv.1,
      messages := [("对话删除成功", "success")], logs := sv.2 }
  else
    { ok := false, dialogues := dialogues, persisted := slot,
      messages := [], logs := [] }

/-- `clearAllData` (src/script.js:396-408): error message when empty,
otherwise (behind `confirm`) reset to the empty sequence and save. -/
def clearAllData (persistOk confirmed : Bool)
    (dialogues : List Dialogue) (slot : Option (List Dialogue)) : OpResult :=
  if dialogues.length = 0 then
    { ok := false, dialogues := dialogues, persisted := slot,
      messages := [("没有数据可清空", "error")], logs := [] }
  else if confirmed then
    let sv := saveDialogues persistOk [] slot
    { ok := true, dialogues := [], persisted := sv.1,
      messages := [("所有数据已清空", "success")], logs := sv.2 }
  else
    { ok := false, dialogues := dialogues, persisted := slot,
      messages := [], logs := [] }

/-- `exportData` (src/script.js:311-326): rejected with an error message
on an empty store; otherwise the full sequence is serialized with
`JSON.stringify(this.dialogues, null, 2)` and offered as a download.  The
serialized document is modelled at the parsed-JSON level (`JSON.parse`
inverts `JSON.stringify` on these flat string-field objects). -/
def exportData (dialogues : List Dialogue) :
    Option JVal × List (String × String) :=
  if dialogues.length = 0 then (none, [("没有数据可导出", "error")])
  else (some (.arr (dialogues.map dialogueToItem)), [("数据导出成功", "success")])

/-- `handleFileImport`, reader-onload body (src/script.js:342-381), given
the outcome of `JSON.parse` on the file text (`.error m` when parsing
threw with message `m`).  Not-an-array and any structurally invalid item
both throw, are caught, and leave the store untouched; surviving the
validation, candidates whose id already exists are dropped, and the rest
are unshifted — prepended as a block — before the existing records. -/
def handleFileImport (persistOk : Bool) (input : Except String JVal)
    (dialogues : List Dialogue) (slot : Option (List Dialogue)) : OpResult :=
  match input with
  | .error m =>
      { ok := false, dialogues := dialogues, persisted := slot,
        messages := [("文件导入失败：" ++ m, "error")],
        logs := ["导入文件失败: " ++ m] }
  | .ok v =>
      match v with
      | .notArr _ =>
          { ok := false, dialogues := dialogues, persisted := slot,
            messages := [("文件导入失败：文件格式不正确", "error")],
            logs := ["导入文件失败: 文件格式不正确"] }
      | .arr items =>
          if items.all validItem then
            let existingIds := dialogues.map (fun d => d.id)
            let newDialogues := items.filter (fun it => !(existingIds.contains (itemId it)))
            if newDialogues.length = 0 then
              { ok := false, dialogues := dialogues, persisted := slot,
                messages := [("没有新的对话数据可导入", "info")], logs := [] }
            else
              let ds := newDialogues.map itemToDialogue ++ dialogues
              let sv := saveDialogues persistOk ds slot
              { ok := true, dialogues := ds, persisted := sv.1,
                messages := [("成功导入 " ++ toString newDialogues.length ++ " 条对话", "success")],
                logs := sv.2 }
          else
            { ok := false, dialogues := dialogues, persisted := slot,
              messages := [("文件导入失败：文件数据结构不正确", "error")],
              logs := ["导入文件失败: 文件数据结构不正确"] }

/-- Whether an import input passes all of `handleFileImport`'s checks:
`JSON.parse` succeeded, `Array.isArray` holds, and every item passes the
structural validation. -/
def batchValid : Except String JVal → Bool
  | .ok (.arr items) => items.all validItem
  | _ => false

/-- The records a validated batch contributes to the store: candidates
whose id does not already occur, converted to stored records, in their
original relative order. -/
def importSurvivors (items : List JItem) (dialogues : List Dialogue) : List Dialogue :=
  (items.filter (fun it => !((dialogues.map (fun d => d.id)).contains (itemId it)))).map itemToDialogue

/-- One store operation, as drivable by the UI layer: an `addDialogue`
call, a `deleteDialogue` call, a file import, or a clear-all.  The
environment inputs (`Date.now()`, locale time, `confirm` answer,
`setItem` success, file parse outcome) are carried by the operation. -/
inductive Op where
  | add (persistOk : Bool) (now : Nat) (locTime role dialogueText thinkText : String)
  | del (persistOk confirmed : Bool) (id : String)
  | imp (persistOk : Bool) (input : Except String JVal)
  | clr (persistOk confirmed : Bool)

/-- The store's state: the in-memory sequence and the persisted slot. -/
structure StoreState where
  dialogues : List Dialogue
  slot : Option (List Dialogue)

/-- Apply one operation to the store state. -/
def applyOp (st : StoreState) : Op → StoreState
  | .add p now lt role d th =>
      let r := addDialogue p now lt role d th st.dialogues st.slot
      ⟨r.dialogues, r.persisted⟩
  | .del p c id =>
      let r := deleteDialogue p c id st.dialogues st.slot
      ⟨r.dialogues, r.persisted⟩
  | .imp p input =>
      let r := handleFileImport p input st.dialogues st.slot
      ⟨r.dialogues, r.persisted⟩
  | .clr p c =>
      let r := clearAllData p c st.dialogues st.slot
      ⟨r.dialogues, r.persisted⟩

/-- Run a sequence of operations from an initial state. -/
def runOps (init : StoreState) (ops : List Op) : StoreState :=
  ops.foldl applyOp init

/-- Every stored record has a dialogue text that is neither empty nor
whitespace-only. -/
def dialoguesNonempty (ds : List Dialogue) : Bool :=
  ds.all (fun d => jsTrim d.dialogue != "")

/-- Side condition on an import input under which the non-empty-dialogue
invariant is preserved: either the batch fails validation (and is wholly
rejected), or every candidate's `dialogue` is non-whitespace-only.  The
code itself never checks emptiness of imported dialogues. -/
def impGood : Except String JVal → Bool
  | .ok (.arr items) =>
      !(items.all validItem) || items.all (fun it => jsTrim (itemToDialogue it).dialogue != "")
  | _ => true

/-- Side condition on an operation for the non-empty-dialogue invariant:
only imports are constrained. -/
def opGood : Op → Bool
  | .imp _ input => impGood input
  | _ => true

/-- A sample well-formed import item used in concrete instances. -/
def sampleItem : JItem :=
  .obj [("id", .jstr "x1"), ("role", .jstr "responder"),
        ("dialogue", .jstr "ok"), ("think", .jstr "why"), ("timestamp", .jstr "t0")]

/-- A sample stored record used in concrete instances. -/
def sampleDialogue : Dialogue :=
  { id := "a1", role := "questioner", dialogue := "hi", think := "", timestamp := "t1" }

/-- A sample operation sequence used in concrete instances. -/
def sampleOps : List Op :=
  [Op.add true 5 "t" "questioner" " hi " "",
   Op.imp true (.ok (.arr [sampleItem])),
   Op.del true true "zz",
   Op.clr true false]

/-! ### Helper lemmas -/

theorem dropWhile_dropWhile_eq (w : α → Bool) (l : List α) :
    (l.dropWhile w).dropWhile w = l.dropWhile w := by
  induction l with
  | nil => rfl
  | cons a m ih =>
    by_cases h : w a
    · rw [List.dropWhile_cons_of_pos h]; exact ih
    · rw [List.dropWhile_cons_of_neg h, List.dropWhile_cons_of_neg h]

theorem dropWhile_head_false (w : α → Bool) (l l' : List α) (a : α)
    (h : l.dropWhile w = a :: l') : w a = false := by
  induction l generalizing l' with
  | nil => simp [List.dropWhile] at h
  | cons b m ih =>
    by_cases hb : w b
    · rw [List.dropWhile_cons_of_pos hb] at h
      exact ih l' h
    · rw [List.dropWhile_cons_of_neg hb] at h
      cases h
      simpa using hb

theorem trim_expr_idem (w : α → Bool) (l : List α) :
    ((((l.dropWhile w).reverse.dropWhile w).reverse.dropWhile w).reverse.dropWhile w).reverse
      = ((l.dropWhile w).reverse.dropWhile w).reverse := by
  have h1 : (((l.dropWhile w).reverse.dropWhile w).reverse).dropWhile w
      = ((l.dropWhile w).reverse.dropWhile w).reverse := by
    rcases hBe : ((l.dropWhile w).reverse.dropWhile w).reverse with _ | ⟨a, r⟩
    · rfl
    · have hsplit : (l.dropWhile w).reverse.takeWhile w ++ (l.dropWhile w).reverse.dropWhile w
          = (l.dropWhile w).reverse := List.takeWhile_append_dropWhile w (l.dropWhile w).reverse
      have hA2 : l.dropWhile w
          = ((l.dropWhile w).reverse.dropWhile w).reverse
            ++ ((l.dropWhile w).reverse.takeWhile w).reverse := by
        have h3 := congrArg List.reverse hsplit
        rw [List.reverse_append, List.reverse_reverse] at h3
        exact h3.symm
      rw [hBe] at hA2
      have hcons : l.dropWhile w
          = a :: (r ++ ((l.dropWhile w).reverse.takeWhile w).reverse) := by
        simpa using hA2
      have hwa : w a = false := dropWhile_head_false w l _ a hcons
      rw [List.dropWhile_cons_of_neg (by simp [hwa])]
  rw [h1, List.reverse_reverse, dropWhile_dropWhile_eq]

theorem trimList_idem (l : List Char) : trimList (trimList l) = trimList l := by
  unfold trimList
  exact trim_expr_idem Char.isWhitespace l

theorem jsTrim_idem (s : String) : jsTrim (jsTrim s) = jsTrim s := by
  unfold jsTrim
  exact congrArg String.mk (trimList_idem s.data)

theorem itemToDialogue_dialogueToItem (r : Dialogue) :
    itemToDialogue (dialogueToItem r) = r := by
  cases r
  rfl

theorem validItem_dialogueToItem (r : Dialogue) :
    validItem (dialogueToItem r) = true := by
  cases r
  rfl

theorem handleFileImport_valid_dialogues (persistOk : Bool) (items : List JItem)
    (dialogues : List Dialogue) (slot : Option (List Dialogue))
    (h : items.all validItem = true) :
    (handleFileImport persistOk (.ok (.arr items)) dialogues slot).dialogues
      = importSurvivors items dialogues ++ dialogues := by
  unfold importSurvivors
  simp only [handleFileImport]
  rw [if_pos h]
  by_cases h0 : (items.filter
      (fun it => !((dialogues.map (fun d => d.id)).contains (itemId it)))).length = 0
  · rw [if_pos h0, List.length_eq_zero.mp h0]
    simp
  · rw [if_neg h0]

/-! ### Claims -/

/-- C1: the claim says no two records ever share an id, even for append
calls within the same millisecond.  The code derives the id from
`Date.now().toString()` alone (src/script.js:58), so two appends observing
the same millisecond clock value produce two records with the same id:
evaluating two appends at `now = 1000` yields ids `["1000", "1000"]`,
which are not pairwise distinct. -/
theorem c1_duplicate_id_same_millisecond :
    ((addDialogue true 1000 "t2" "responder" "b" "c"
        (addDialogue true 1000 "t1" "questioner" "a" "" [] none).dialogues
        (addDialogue true 1000 "t1" "questioner" "a" "" [] none).persisted).dialogues.map
      (fun d => d.id)) = ["1000", "1000"] ∧
    ¬ ((addDialogue true 1000 "t2" "responder" "b" "c"
        (addDialogue true 1000 "t1" "questioner" "a" "" [] none).dialogues
        (addDialogue true 1000 "t1" "questioner" "a" "" [] none).persisted).dialogues.map
      (fun d => d.id)).Nodup := by
  decide

/-- C2: exporting a non-empty sequence `S` and importing the parsed export
into an empty store yields exactly `S`, in the same order: every exported
item passes the structural validation, deduplication against the empty
store drops nothing, and prepending to the empty sequence preserves the
order. -/
theorem c2_export_import_round_trip (persistOk : Bool) (S : List Dialogue)
    (slot : Option (List Dialogue)) (hS : S ≠ []) :
    (exportData S).1 = some (.arr (S.map dialogueToItem)) ∧
    (handleFileImport persistOk (.ok (.arr (S.map dialogueToItem))) [] slot).dialogues = S := by
  constructor
  · unfold exportData
    rw [if_neg (fun h => hS (List.length_eq_zero.mp h))]
  · have hv : (S.map dialogueToItem).all validItem = true := by
      rw [List.all_eq_true]
      intro it hit
      obtain ⟨r, _, rfl⟩ := List.mem_map.mp hit
      exact validItem_dialogueToItem r
    rw [handleFileImport_valid_dialogues persistOk _ [] slot hv]
    unfold importSurvivors
    have hflt : (S.map dialogueToItem).filter
        (fun it => !((([] : List Dialogue).map (fun d => d.id)).contains (itemId it)))
        = S.map dialogueToItem :=
      List.filter_eq_self.mpr (fun a _ => rfl)
    rw [hflt, List.map_map, List.append_nil]
    simp only [Function.comp_def, itemToDialogue_dialogueToItem, List.map_id']

/-- C2 witness: the round trip at a concrete one-record sequence. -/
theorem c2_export_import_round_trip_witness :
    (sampleDialogue :: []) ≠ [] ∧
    (handleFileImport true (.ok (.arr ([sampleDialogue].map dialogueToItem))) [] none).dialogues
      = [sampleDialogue] :=
  ⟨by decide, (c2_export_import_round_trip true [sampleDialogue] none (by decide)).2⟩

/-- C3: whenever the import input is not an array, fails to parse, or
contains any candidate failing structural validation, the whole batch is
rejected: the in-memory sequence and the persisted slot are both left
unchanged — a malformed batch is never imported in part. -/
theorem c3_invalid_batch_rejected (persistOk : Bool) (input : Except String JVal)
    (dialogues : List Dialogue) (slot : Option (List Dialogue))
    (h : batchValid input = false) :
    (handleFileImport persistOk input dialogues slot).dialogues = dialogues ∧
    (handleFileImport persistOk input dialogues slot).persisted = slot := by
  match input with
  | .error m => exact ⟨rfl, rfl⟩
  | .ok (.notArr d) => exact ⟨rfl, rfl⟩
  | .ok (.arr items) =>
    have hv : items.all validItem = false := by simpa [batchValid] using h
    constructor <;> simp [handleFileImport, hv]

/-- C3 witness: a batch with three valid-shaped items and one item missing
`dialogue` is rejected and the store is unchanged. -/
theorem c3_invalid_batch_rejected_witness :
    batchValid (.ok (.arr [sampleItem, sampleItem, sampleItem,
      .obj [("id", .jstr "y"), ("role", .jstr "questioner"), ("timestamp", .jstr "t")]])) = false ∧
    (handleFileImport true (.ok (.arr [sampleItem, sampleItem, sampleItem,
      .obj [("id", .jstr "y"), ("role", .jstr "questioner"), ("timestamp", .jstr "t")]]))
      [sampleDialogue] (some [sampleDialogue])).dialogues = [sampleDialogue] :=
  ⟨by decide,
   (c3_invalid_batch_rejected true (.ok (.arr [sampleItem, sampleItem, sampleItem,
      .obj [("id", .jstr "y"), ("role", .jstr "questioner"), ("timestamp", .jstr "t")]]))
      [sampleDialogue] (some [sampleDialogue]) (by decide)).1⟩

/-- C4 counterexample: the claim says no stored record ever has an empty
or whitespace-only dialogue, after any operation sequence including
`importBatch`.  But the import validation (src/script.js:351-357) only
checks that `dialogue` is a string, never that it is non-empty: importing
a single candidate whose dialogue is `"   "` into an empty store
succeeds and stores a whitespace-only dialogue. -/
theorem c4_import_empty_dialogue_counterexample :
    (runOps ⟨[], none⟩ [.imp true (.ok (.arr [.obj [("id", .jstr "x"),
        ("role", .jstr "questioner"), ("dialogue", .jstr "   "),
        ("timestamp", .jstr "t")]]))]).dialogues
      = [{ id := "x", role := "questioner", dialogue := "   ", think := "", timestamp := "t" }] ∧
    jsTrim "   " = "" ∧
    dialoguesNonempty
      [{ id := "x", role := "questioner", dialogue := "   ", think := "", timestamp := "t" }] = false := by
  decide

theorem applyOp_preserves_nonempty (st : StoreState) (op : Op)
    (h : dialoguesNonempty st.dialogues = true) (hop : opGood op = true) :
    dialoguesNonempty (applyOp st op).dialogues = true := by
  cases op with
  | add p now lt role d th =>
    by_cases hd : jsTrim d = ""
    · simpa [applyOp, addDialogue, hd] using h
    · show dialoguesNonempty (addDialogue p now lt role d th st.dialogues st.slot).dialogues = true
      unfold addDialogue
      rw [if_neg hd]
      unfold dialoguesNonempty at h ⊢
      rw [List.all_append, h, Bool.true_and]
      simp [newDialogue, jsTrim_idem, hd]
  | del p c id =>
    cases c with
    | false => simpa [applyOp, deleteDialogue] using h
    | true =>
      show dialoguesNonempty (deleteDialogue p true id st.dialogues st.slot).dialogues = true
      unfold deleteDialogue dialoguesNonempty
      rw [if_pos rfl]
      rw [List.all_eq_true]
      intro x hx
      exact List.all_eq_true.mp h x (List.mem_filter.mp hx).1
  | clr p c =>
    by_cases h0 : st.dialogues.length = 0
    · simpa [applyOp, clearAllData, h0] using h
    · cases c with
      | false => simpa [applyOp, clearAllData, h0] using h
      | true => simp [applyOp, clearAllData, h0, dialoguesNonempty]
  | imp p input =>
    match input with
    | .error m => simpa [applyOp, handleFileImport] using h
    | .ok (.notArr d) => simpa [applyOp, handleFileImport] using h
    | .ok (.arr items) =>
      by_cases hv : items.all validItem = true
      · have hall : items.all (fun it => jsTrim (itemToDialogue it).dialogue != "") = true := by
          have h2 := hop
          simp only [opGood, impGood, hv, Bool.not_true, Bool.false_or] at h2
          exact h2
        show dialoguesNonempty
          (handleFileImport p (.ok (.arr items)) st.dialogues st.slot).dialogues = true
        rw [handleFileImport_valid_dialogues p items st.dialogues st.slot hv]
        unfold dialoguesNonempty at h ⊢
        rw [List.all_append, h, Bool.and_true]
        rw [List.all_eq_true]
        intro x hx
        unfold importSurvivors at hx
        obtain ⟨it, hit, rfl⟩ := List.mem_map.mp hx
        exact List.all_eq_true.mp hall it (List.mem_filter.mp hit).1
      · have hv' : items.all validItem = false := by
          cases hb : items.all validItem
          · rfl
          · exact absurd hb hv
        show dialoguesNonempty
          (handleFileImport p (.ok (.arr items)) st.dialogues st.slot).dialogues = true
        simpa [handleFileImport, hv'] using h

/-- C4 (amended): the non-empty-dialogue invariant holds across any
sequence of operations provided the hydrated initial sequence satisfies
it and every import batch either fails validation or carries only
candidates with non-whitespace-only dialogues.  The code enforces the
invariant for `addDialogue` (rejecting empty trimmed text) but performs
no emptiness check on import or hydration, so these side conditions are
necessary — see the counterexample. -/
theorem c4_dialogue_nonempty_invariant (init : StoreState) (ops : List Op)
    (hinit : dialoguesNonempty init.dialogues = true)
    (hops : ∀ op ∈ ops, opGood op = true) :
    dialoguesNonempty (runOps init ops).dialogues = true := by
  induction ops generalizing init with
  | nil => exact hinit
  | cons op rest ih =>
    rw [runOps, List.foldl_cons]
    exact ih (applyOp init op)
      (applyOp_preserves_nonempty init op hinit (hops op (by simp)))
      (fun o ho => hops o (by simp [ho]))

/-- C4 witness: the invariant at a concrete operation sequence covering
append, import, delete and clear. -/
theorem c4_dialogue_nonempty_invariant_witness :
    dialoguesNonempty (StoreState.mk [] none).dialogues = true ∧
    (∀ op ∈ sampleOps, opGood op = true) ∧
    dialoguesNonempty (runOps ⟨[], none⟩ sampleOps).dialogues = true :=
  ⟨by decide, by decide,
   c4_dialogue_nonempty_invariant ⟨[], none⟩ sampleOps (by decide) (by decide)⟩

/-- C5 counterexample: the claim says a persistence failure is reported
to the caller as a non-fatal warning.  In the code, `saveDialogues`
(src/script.js:36-42) only logs the failure via `console.error`, and
`addDialogue` still returns `true` and shows the plain success
notification; at this concrete input the save fails, the slot keeps its
previous content and the in-memory list is updated, yet the only
caller-visible notification is the success message — no warning ever
reaches the caller. -/
theorem c5_persist_failure_counterexample :
    addDialogue false 1000 "t" "responder" "hi" "why" [] (some []) =
      { ok := true,
        dialogues := [{ id := "1000", role := "responder", dialogue := "hi",
                        think := "why", timestamp := "t" }],
        persisted := some [],
        messages := [("对话添加成功", "success")],
        logs := ["保存对话数据失败"] } := by
  decide

/-- C5 (amended): a persistence failure is caught and only logged to the
console (non-fatal); the in-memory sequence is retained unchanged
regardless of the persistence outcome and the slot keeps its previous
content, while the operation still reports plain success to the caller
rather than a warning. -/
theorem c5_persist_failure_amended (now : Nat)
    (locTime role dialogueText thinkText : String)
    (dialogues : List Dialogue) (slot : Option (List Dialogue))
    (h : jsTrim dialogueText ≠ "") :
    (∀ persistOk,
      (addDialogue persistOk now locTime role dialogueText thinkText dialogues slot).dialogues
        = dialogues ++ [newDialogue now locTime role dialogueText thinkText] ∧
      (addDialogue persistOk now locTime role dialogueText thinkText dialogues slot).ok = true)
    ∧ (addDialogue false now locTime role dialogueText thinkText dialogues slot).persisted = slot
    ∧ (addDialogue false now locTime role dialogueText thinkText dialogues slot).logs
        = ["保存对话数据失败"]
    ∧ (addDialogue false now locTime role dialogueText thinkText dialogues slot).messages
        = [("对话添加成功", "success")] := by
  refine ⟨fun persistOk => ⟨?_, ?_⟩, ?_, ?_, ?_⟩ <;>
    simp [addDialogue, saveDialogues, h]

/-- C5 witness: the amended statement at a concrete input with a failing
save. -/
theorem c5_persist_failure_amended_witness :
    jsTrim "hi" ≠ "" ∧
    (addDialogue false 7 "t" "questioner" "hi" "" [] none).persisted = none :=
  ⟨by decide, (c5_persist_failure_amended 7 "t" "questioner" "hi" "" [] none (by decide)).2.1⟩

/-- C6 counterexample: the claim says that when the snapshot fails to
parse as the expected structure the store initializes to an empty
sequence.  The code (src/script.js:23-31) only catches `JSON.parse`
exceptions: a slot holding `"42"` is valid JSON, parses to a non-array
value, and is returned as-is — the store is populated with a non-sequence
value, not initialized empty. -/
theorem c6_wrong_structure_counterexample :
    loadDialogues (some (.ok (.notArr "42"))) = (.notArr "42", []) ∧
    JVal.notArr "42" ≠ .arr [] := by
  decide

/-- C6 (amended): hydration populates the store with the parsed snapshot
whenever the slot is present and parses as JSON (with no structural
validation at all — a well-formed array of records is loaded, but so is
any other JSON value); when the slot is absent, or `JSON.parse` throws,
the store initializes to the empty sequence and the failure is caught and
logged, never fatal. -/
theorem c6_hydrate_amended :
    loadDialogues none = (.arr [], []) ∧
    (∀ m, loadDialogues (some (.error m)) = (.arr [], ["加载对话数据失败: " ++ m])) ∧
    (∀ v, loadDialogues (some (.ok v)) = (v, [])) :=
  ⟨rfl, fun _ => rfl, fun _ => rfl⟩

/-- C7 counterexample: the claim says a delete with no matching record is
a no-op reported as not-found.  The code (src/script.js:76-83) never
checks whether anything was removed: deleting id `"b"` from a store whose
only record has id `"a1"` leaves the sequence unchanged but still saves
and shows the ordinary deletion-success notification — identical to the
report of a successful delete, with no not-found outcome. -/
theorem c7_missing_id_counterexample :
    deleteDialogue true true "b" [sampleDialogue] (some [sampleDialogue]) =
      { ok := true, dialogues := [sampleDialogue],
        persisted := some [sampleDialogue],
        messages := [("对话删除成功", "success")], logs := [] } := by
  decide

/-- C7 (amended): a confirmed `deleteDialogue` removes every record whose
id matches (the unique one, under id-uniqueness) and persists the result;
when no record matches, the sequence is left unchanged, but the code
still persists and reports the ordinary deletion success — it does not
report a not-found outcome. -/
theorem c7_delete_amended (persistOk : Bool) (id : String)
    (dialogues : List Dialogue) (slot : Option (List Dialogue)) :
    (deleteDialogue persistOk true id dialogues slot).dialogues
      = dialogues.filter (fun d => d.id != id)
    ∧ (deleteDialogue persistOk true id dialogues slot).messages
      = [("对话删除成功", "success")]
    ∧ (deleteDialogue true true id dialogues slot).persisted
      = some (dialogues.filter (fun d => d.id != id))
    ∧ (id ∉ dialogues.map (fun d => d.id) →
        dialogues.filter (fun d => d.id != id) = dialogues) := by
  refine ⟨?_, ?_, ?_, fun hid => ?_⟩
  · simp [deleteDialogue]
  · simp [deleteDialogue]
  · simp [deleteDialogue, saveDialogues]
  · apply List.filter_eq_self.mpr
    intro d hd
    have hne : d.id ≠ id := fun he => hid (he ▸ List.mem_map_of_mem (fun x => x.id) hd)
    simpa [bne_iff_ne] using hne

/-- C7 witness: the amended statement at a concrete input where no record
matches. -/
theorem c7_delete_amended_witness :
    [sampleDialogue].filter (fun d => d.id != "b") = [sampleDialogue] ∧
    (deleteDialogue true true "b" [sampleDialogue] none).messages
      = [("对话删除成功", "success")] :=
  ⟨(c7_delete_amended true "b" [sampleDialogue] none).2.2.2 (by decide),
   (c7_delete_amended true "b" [sampleDialogue] none).2.1⟩

/-- C9: for any append with role Questioner and any reasoning text, the
stored record's `think` is empty; `think` is the trimmed reasoning text
exactly when the role is `responder`, and forced empty for every other
role (src/script.js:61). -/
theorem c9_reasoning_suppression (persistOk : Bool) (now : Nat)
    (locTime dialogueText thinkText : String)
    (dialogues : List Dialogue) (slot : Option (List Dialogue))
    (h : jsTrim dialogueText ≠ "") :
    (addDialogue persistOk now locTime "questioner" dialogueText thinkText dialogues slot).dialogues
      = dialogues ++ [newDialogue now locTime "questioner" dialogueText thinkText]
    ∧ (newDialogue now locTime "questioner" dialogueText thinkText).think = ""
    ∧ (∀ role, role ≠ "responder" →
        (newDialogue now locTime role dialogueText thinkText).think = "")
    ∧ (newDialogue now locTime "responder" dialogueText thinkText).think = jsTrim thinkText := by
  refine ⟨?_, ?_, fun role hr => ?_, ?_⟩
  · simp [addDialogue, h]
  · simp [newDialogue]
  · simp [newDialogue, hr]
  · simp [newDialogue]

/-- C9 witness: the suppression at a concrete Questioner append with a
non-empty reasoning text. -/
theorem c9_reasoning_suppression_witness :
    jsTrim " hi " ≠ "" ∧
    (newDialogue 5 "t" "questioner" " hi " "because").think = "" :=
  ⟨by decide, (c9_reasoning_suppression true 5 "t" " hi " "because" [] none (by decide)).2.1⟩

/-- C10: an append with whitespace-only dialogue text is rejected with an
error notification and leaves the sequence and the slot unchanged;
otherwise the new record (with trimmed dialogue) is appended at the end
of the sequence and the full sequence is persisted (shown here with a
succeeding save). -/
theorem c10_append_spec (now : Nat) (locTime role dialogueText thinkText : String)
    (dialogues : List Dialogue) (slot : Option (List Dialogue)) :
    addDialogue true now locTime role dialogueText thinkText dialogues slot =
      if jsTrim dialogueText = "" then
        { ok := false, dialogues := dialogues, persisted := slot,
          messages := [("请输入对话内容", "error")], logs := [] }
      else
        { ok := true,
          dialogues := dialogues ++ [newDialogue now locTime role dialogueText thinkText],
          persisted := some (dialogues ++ [newDialogue now locTime role dialogueText thinkText]),
          messages := [("对话添加成功", "success")], logs := [] } := by
  by_cases h : jsTrim dialogueText = "" <;> simp [addDialogue, saveDialogues, h]

/-- C8: for a batch that passes validation, the resulting sequence is the
deduplication survivors — converted in their original relative order
(`importSurvivors` is a `filter`, hence order-preserving) — prepended as
one block in front of the existing records, which keep their relative
order as the unchanged suffix; the survivors form a sublist of the
batch's records. -/
theorem c8_import_prepends_block (persistOk : Bool) (items : List JItem)
    (dialogues : List Dialogue) (slot : Option (List Dialogue))
    (h : items.all validItem = true) :
    (handleFileImport persistOk (.ok (.arr items)) dialogues slot).dialogues
      = importSurvivors items dialogues ++ dialogues
    ∧ (importSurvivors items dialogues).Sublist (items.map itemToDialogue) :=
  ⟨handleFileImport_valid_dialogues persistOk items dialogues slot h,
   List.Sublist.map itemToDialogue (List.filter_sublist items)⟩

/-- C8 witness: a concrete import of two candidates, one of which
duplicates an existing id, prepends exactly the fresh one. -/
theorem c8_import_prepends_block_witness :
    ([.obj [("id", .jstr "a1"), ("role", .jstr "questioner"),
        ("dialogue", .jstr "old"), ("timestamp", .jstr "t")], sampleItem] : List JItem).all
      validItem = true ∧
    (handleFileImport true (.ok (.arr [.obj [("id", .jstr "a1"), ("role", .jstr "questioner"),
        ("dialogue", .jstr "old"), ("timestamp", .jstr "t")], sampleItem]))
      [sampleDialogue] none).dialogues
      = [{ id := "x1", role := "responder", dialogue := "ok", think := "why",
           timestamp := "t0" }, sampleDialogue] :=
  ⟨by decide,
   ((c8_import_prepends_block true [.obj [("id", .jstr "a1"), ("role", .jstr "questioner"),
        ("dialogue", .jstr "old"), ("timestamp", .jstr "t")], sampleItem]
      [sampleDialogue] none (by decide)).1).trans (by decide)⟩
